import Mathlib

/-!
Shallow embedding of the scheduling backend (src/app/web/main.go, two
revisions in one file) for checking the specification's claims.

Revision 1 (venues / rooms / appointments) holds `AppointmentRepo` with
`All` (month-bounded listing), `Search` (room + owner/guest filter),
`Create`, and `VenueRepo` with `Find` / `Update`, plus the httprouter
based handlers and the `recoverHandler` middleware.

Revision 2 (offices / rooms) holds the office-based `Room` struct whose
`OfficeId` field carries a malformed json tag and no bson tag, and
`RoomRepo.AllByOfficeId` querying the `office_id` key.

Instants stored in the document store are modelled as `Int` nanoseconds
since the Unix epoch (the order mongo uses when comparing BSON dates).
Civil datetimes (`time.Now()` decomposed, and the UTC+7 local fields of
the presentation mapper) are modelled by the `DateTime` record.
-/

/-- A civil (calendar) datetime: year, month (1..12), day of month,
hour, minute, second, nanosecond.  Used both for the current instant
`time.Now()` seen by `jinzhu/now` and, in the mapper model, for an
instant expressed in the fixed UTC+7 offset. -/
structure DateTime where
  year : Int
  month : Nat
  day : Nat
  hour : Nat
  minute : Nat
  second : Nat
  nanosecond : Nat
deriving DecidableEq, Repr

/-- Gregorian leap-year rule (as in Go time.isLeap). -/
def isLeap (y : Int) : Bool :=
  y % 4 == 0 && (y % 100 != 0 || y % 400 == 0)

/-- Number of days of month `m` of year `y` (as in Go time.daysIn). -/
def daysInMonth (y : Int) (m : Nat) : Nat :=
  if m == 2 then (if isLeap y then 29 else 28)
  else if m == 4 || m == 6 || m == 9 || m == 11 then 30
  else 31

/-- Days in months `1..m-1` of year `y`. -/
def daysBeforeMonth (y : Int) : Nat → Nat
  | 0 => 0
  | 1 => 0
  | n + 1 => daysBeforeMonth y n + daysInMonth y n

/-- Days from the Unix epoch (1970-01-01) to January 1 of year `y`
(negative for years before 1970): 365 per year plus the leap days in
the years `[1970, y)`. -/
def daysBeforeYear (y : Int) : Int :=
  365 * (y - 1970) + (y - 1969).fdiv 4 - (y - 1901).fdiv 100 + (y - 1601).fdiv 400

/-- Days from the Unix epoch to the civil date `(y, m, d)`. -/
def daysFromCivil (y : Int) (m d : Nat) : Int :=
  daysBeforeYear y + (daysBeforeMonth y m : Int) + ((d : Int) - 1)

/-- Nanoseconds from the Unix epoch to the civil datetime `t`
(read as a UTC datetime). -/
def toNs (t : DateTime) : Int :=
  ((daysFromCivil t.year t.month t.day) * 86400
      + (t.hour : Int) * 3600 + (t.minute : Int) * 60 + (t.second : Int)) * 1000000000
    + (t.nanosecond : Int)

/-- jinzhu/now `BeginningOfMonth`: first day of `t`'s month at 00:00:00.0. -/
def BeginningOfMonth (t : DateTime) : DateTime :=
  ⟨t.year, t.month, 1, 0, 0, 0, 0⟩

/-- jinzhu/now `EndOfMonth`: last day of `t`'s month at
23:59:59.999999999 (one nanosecond before the next month). -/
def EndOfMonth (t : DateTime) : DateTime :=
  ⟨t.year, t.month, daysInMonth t.year t.month, 23, 59, 59, 999999999⟩

/-- The span of a window `(start, stop)` in nanoseconds. -/
def windowSpanNs (w : DateTime × DateTime) : Int :=
  toNs w.2 - toNs w.1

-- Revision 1: Appointment repository.

/-- The `Appointment` struct of revision 1 (`main.go` lines 484-495):
note `Owner` is a `bool` flag and `GuestIds` a string slice; the two
instants are stored as BSON dates, modelled as epoch nanoseconds. -/
structure Appointment where
  id : String
  appointmentName : String
  roomId : String
  appointmentDesc : String
  guestIds : List String
  owner : Bool
  startTime : Int
  endTime : Int
  createdAt : Int
  updatedAt : Int
deriving DecidableEq, Repr

/-- `AppointmentRepo.All`: the window resolved for the unfiltered
listing — `(now.BeginningOfMonth(), now.EndOfMonth())` computed from
the current instant `t`. -/
def AppointmentRepoAllWindow (t : DateTime) : DateTime × DateTime :=
  (BeginningOfMonth t, EndOfMonth t)

/-- `AppointmentRepo.All` (lines 509-519): returns the stored
appointments whose `start_time` satisfies
`$gte beginningOfMonth, $lte endOfMonth` (both inclusive); no other
filter is applied and no client-supplied bound is read. -/
def AppointmentRepoAll (t : DateTime) (store : List Appointment) : List Appointment :=
  store.filter fun a =>
    toNs (AppointmentRepoAllWindow t).1 ≤ a.startTime
      && a.startTime ≤ toNs (AppointmentRepoAllWindow t).2

/-- `AppointmentRepo.Search` (lines 564-579): mongo query
`room_id ∈ roomIds` AND (`owner == owner` OR `guest_ids` contains
`guestId`).  The query has no `start_time` clause and takes no window
argument. -/
def AppointmentRepoSearch (store : List Appointment) (roomIds : List String)
    (owner : Bool) (guestId : String) : List Appointment :=
  store.filter fun a =>
    roomIds.contains a.roomId && (a.owner == owner || a.guestIds.contains guestId)

/-- The timestamp / identifier stamping done by `AppointmentRepo.Create`
before the upsert: `CreatedAt`, `UpdatedAt` set to the current instant
and the freshly generated object id assigned. -/
def stampAppointment (freshId : String) (now : Int) (a : Appointment) : Appointment :=
  { a with createdAt := now, updatedAt := now, id := freshId }

/-- mgo `UpsertId`: replace the document with the matching id if one
exists, otherwise insert. -/
def collUpsertId (store : List Appointment) (id : String) (a : Appointment) :
    List Appointment :=
  if store.any (fun w => w.id == id) then
    store.map fun w => if w.id == id then a else w
  else store ++ [a]

/-- `AppointmentRepo.Create` (lines 531-543): stamp timestamps, upsert
under a fresh object id, return the new store contents.  The body
contains no temporal validation: nothing compares `startTime` with
`endTime` and nothing inspects other stored appointments.  (Store I/O
failure, an infrastructure error, is outside this pure model.) -/
def AppointmentRepoCreate (freshId : String) (now : Int) (store : List Appointment)
    (a : Appointment) : List Appointment :=
  collUpsertId store freshId (stampAppointment freshId now a)

-- Errors and the recover middleware.

/-- The `Error` struct written by `WriteError` (lines 28-33). -/
structure Error where
  id : String
  status : Nat
  title : String
  detail : String
deriving DecidableEq, Repr

/-- `ErrInternalServer` (line 45): what `recoverHandler` reports after
recovering any panic. -/
def ErrInternalServer : Error :=
  ⟨"internal_server_error", 500, "Internal Server Error", "Something went wrong."⟩

/-- `ErrBadRequest` (line 42): the only 400-status error the code ever
writes (malformed JSON body). -/
def ErrBadRequest : Error :=
  ⟨"bad_request", 400, "Bad request", "Request body is not well-formed. It must be JSON."⟩

/-- Modelled from the spec: the spec's `ValidationError` kind (section 7:
malformed identifier, timestamp or body, reported to the caller as a
client validation failure, i.e. a 400-class bad-request response, the
shape `ErrBadRequest` has).  The code itself declares no such kind for
identifiers, which is what claim C6 is about. -/
def isValidationError (e : Error) : Bool :=
  e.status == 400

/-- A Go panic raised during request handling: `bson.ObjectIdHex` on a
malformed identifier, or `panic(err)` on an mgo error in a handler. -/
inductive GoPanic where
  | invalidObjectId : GoPanic
  | storeError : GoPanic
deriving DecidableEq, Repr

/-- Hexadecimal digit as accepted by Go `encoding/hex` (0-9, a-f, A-F). -/
def isHexChar (c : Char) : Bool :=
  (48 ≤ c.toNat && c.toNat ≤ 57) || (97 ≤ c.toNat && c.toNat ≤ 102)
    || (65 ≤ c.toNat && c.toNat ≤ 70)

/-- Validity test of `bson.ObjectIdHex`: the argument decodes to 12
bytes, i.e. is exactly 24 hex characters; otherwise `ObjectIdHex`
panics. -/
def validObjectIdHex (s : String) : Bool :=
  s.length == 24 && s.toList.all isHexChar

-- Revision 1: Venue repository.

/-- The `Venue` struct of revision 1 (lines 178-184), with its object id
as the 24-hex string and timestamps as epoch nanoseconds (the embedded
`Rooms` slice plays no role in the claims). -/
structure Venue where
  id : String
  name : String
  createdAt : Int
  updatedAt : Int
deriving DecidableEq, Repr

/-- mgo errors surfaced as return values by the repositories. -/
inductive MgoError where
  | notFound : MgoError
deriving DecidableEq, Repr

/-- `VenueRepo.Find` (lines 208-216) together with the store-access
count: `bson.ObjectIdHex` panics on a malformed identifier before
`FindId(...).One` runs, so zero store accesses happen in that case;
otherwise one query runs and a missing document is the mgo not-found
error.  Result: `(outcome, number of store accesses)`. -/
def VenueRepoFind (store : List Venue) (id : String) :
    Except GoPanic (Except MgoError Venue) × Nat :=
  if validObjectIdHex id then
    match store.find? (fun v => v.id == id) with
    | some v => (.ok (.ok v), 1)
    | none => (.ok (.error .notFound), 1)
  else (.error .invalidObjectId, 0)

/-- Outcome of a request after the middleware chain: a success payload
or an `Error` response. -/
inductive HttpResult (α : Type) where
  | success : α → HttpResult α
  | failure : Error → HttpResult α
deriving DecidableEq, Repr

/-- `appContext.venueHandler` (lines 278-287) under `recoverHandler`
(lines 66-79): a repo error is re-raised with `panic(err)` and every
panic is recovered into the `ErrInternalServer` response.  Result:
`(response, number of store accesses)`. -/
def venueHandler (store : List Venue) (id : String) : HttpResult Venue × Nat :=
  match VenueRepoFind store id with
  | (.error _, n) => (.failure ErrInternalServer, n)
  | (.ok (.error _), n) => (.failure ErrInternalServer, n)
  | (.ok (.ok v), n) => (.success v, n)

/-- mgo `UpdateId`: replace the document with the matching id, or
report the not-found error; no document is ever inserted. -/
def collUpdateId (store : List Venue) (id : String) (v : Venue) :
    Except MgoError (List Venue) :=
  if store.any (fun w => w.id == id) then
    .ok (store.map fun w => if w.id == id then v else w)
  else .error .notFound

/-- `VenueRepo.Update` (lines 232-240): stamp `UpdatedAt` with the
current instant, then `UpdateId` on the venue's id. -/
def VenueRepoUpdate (now : Int) (store : List Venue) (venue : Venue) :
    Except MgoError (List Venue) :=
  collUpdateId store venue.id { venue with updatedAt := now }

/-- The store contents after `VenueRepo.Update`: unchanged when the
update reported an error. -/
def venueStoreAfterUpdate (now : Int) (store : List Venue) (venue : Venue) :
    List Venue :=
  match VenueRepoUpdate now store venue with
  | .ok s => s
  | .error _ => store

-- Revision 1: the search-appointments handler and its route.

/-- Split a character list into its slash-separated segments. -/
def splitOnSlash : List Char → List (List Char)
  | [] => [[]]
  | c :: cs =>
    match splitOnSlash cs with
    | [] => [[]]
    | seg :: rest => if c == '/' then [] :: seg :: rest else (c :: seg) :: rest

/-- The names of the path parameters an httprouter pattern declares:
the `:name` (and `*name`) segments of the registered path. -/
def pathParamNames (pattern : String) : List String :=
  (splitOnSlash pattern.toList).filterMap fun seg =>
    match seg with
    | [] => none
    | c :: rest => if c == ':' || c == '*' then some (String.mk rest) else none

/-- The route pattern registered for the search handler
(line 690): `router.Get("/search-appointments", ...)`. -/
def searchAppointmentsRoute : String := "/search-appointments"

/-- httprouter `Params.ByName`: the value of the first parameter with
the given name, or the empty string when none matches. -/
def paramsByName (ps : List (String × String)) (name : String) : String :=
  match ps.find? (fun p => p.1 == name) with
  | some p => p.2
  | none => ""

/-- Go `strconv.ParseBool` with the error discarded (the handler writes
`owner, _ := strconv.ParseBool(...)`): `true` exactly on Go's true
spellings, and `false` — the bool zero value — on everything else,
including every parse failure. -/
def parseBoolOrFalse (s : String) : Bool :=
  s == "1" || s == "t" || s == "T" || s == "true" || s == "TRUE" || s == "True"

/-- `appContext.searchAppointmentsHandler` (lines 640-652): room ids
come from the `room_ids[]` query parameter, while `owner` and
`guest_id` are read from the route's path parameters `ps` and fed to
`AppointmentRepo.Search`. -/
def searchAppointmentsHandler (store : List Appointment) (roomIdsQuery : List String)
    (ps : List (String × String)) : List Appointment :=
  AppointmentRepoSearch store roomIdsQuery
    (parseBoolOrFalse (paramsByName ps "owner")) (paramsByName ps "guest_id")

-- Revision 2: the office-based Room repository.

namespace Office

/-- The `Room` struct of revision 2 (lines 1011-1015).  Its `OfficeId`
field has the malformed tag `json:office_id` (no quotes, so Go ignores
it) and no bson tag at all. -/
structure Room where
  id : String
  name : String
  officeId : String
deriving DecidableEq, Repr

/-- A persisted BSON document, as the list of its key/value pairs. -/
abbrev Doc : Type := List (String × String)

/-- How mgo marshals a revision-2 `Room`: `Id` under its bson tag
`_id`; `Name` and `OfficeId` carry no bson tag, so mgo uses the
lowercased Go field names `name` and `officeid` (the malformed json
tag plays no part in bson marshalling). -/
def marshalRoom (r : Room) : Doc :=
  [("_id", r.id), ("name", r.name), ("officeid", r.officeId)]

/-- Value of the field named `key` in a BSON document, when present. -/
def bsonGet (d : Doc) (key : String) : Option String :=
  (d.find? (fun p => p.1 == key)).map fun p => p.2

/-- `RoomRepo.Create` (lines 1049-1059): upsert the marshalled room
under a fresh object id (a fresh id never matches an existing `_id`,
so the upsert inserts). -/
def RoomRepoCreate (store : List Doc) (freshId : String) (room : Room) : List Doc :=
  store ++ [marshalRoom { room with id := freshId }]

/-- `RoomRepo.AllByOfficeId` (lines 1079-1087): mongo query on the
field key `office_id` — string equality of that field's value with
the given office identifier; a document lacking the key matches no
string value. -/
def RoomRepoAllByOfficeId (store : List Doc) (officeId : String) : List Doc :=
  store.filter fun d => bsonGet d "office_id" == some officeId

/-- A rooms collection populated entirely through `RoomRepo.Create`:
each listed pair is one create call (the fresh id the store assigned,
and the room the client sent). -/
def createAll (items : List (String × Room)) : List Doc :=
  items.foldl (fun s p => RoomRepoCreate s p.1 p.2) []

end Office

-- The event presentation mapper (a revision absent from src/).

namespace Mapper

/-- Modelled from the spec: the `Event` record of the events revision,
which is not among the source files (only the appointment-based
revisions are); section 3 lists its fields — identifier, display name,
location reference and label, description, guest identifiers, owner
identifier, and start/end instants.  The two instants are represented
by their civil fields in the fixed UTC+7 offset (section 4.3); for
such fixed-offset instants, field-wise equality of the `DateTime`
records is instant equality. -/
structure Event where
  id : String
  name : String
  locationId : String
  location : String
  description : String
  guests : List String
  owner : String
  startTime : DateTime
  endTime : DateTime
deriving DecidableEq, Repr

/-- Modelled from the spec: the decomposed response shape (sections 3
and 4.3) — the non-temporal fields unchanged, the start instant
decomposed into date, month, year, hour and minute, and the end
instant into hour and minute only. -/
structure EventResponse where
  id : String
  name : String
  locationId : String
  location : String
  description : String
  guests : List String
  owner : String
  date : Nat
  month : Nat
  year : Int
  startHour : Nat
  startMinute : Nat
  endHour : Nat
  endMinute : Nat
deriving DecidableEq, Repr

/-- Modelled from the spec: the forward projection of the presentation
mapper (section 4.3), store shape to response shape, reading the civil
fields in the fixed UTC+7 offset. -/
def forward (e : Event) : EventResponse :=
  { id := e.id, name := e.name, locationId := e.locationId, location := e.location
    description := e.description, guests := e.guests, owner := e.owner
    date := e.startTime.day, month := e.startTime.month, year := e.startTime.year
    startHour := e.startTime.hour, startMinute := e.startTime.minute
    endHour := e.endTime.hour, endMinute := e.endTime.minute }

/-- Modelled from the spec: the reverse reconstruction of the
presentation mapper (section 4.3) — both instants rebuilt from the
single shared (year, month, date) triple with second = 0 (and zero
sub-seconds) in the fixed UTC+7 offset. -/
def reverse (r : EventResponse) : Event :=
  { id := r.id, name := r.name, locationId := r.locationId, location := r.location
    description := r.description, guests := r.guests, owner := r.owner
    startTime := ⟨r.year, r.month, r.date, r.startHour, r.startMinute, 0, 0⟩
    endTime := ⟨r.year, r.month, r.date, r.endHour, r.endMinute, 0, 0⟩ }

end Mapper

-- Concrete records used by the counterexamples and witnesses.

/-- A stored appointment in room R1 with start instant 1000 ns. -/
def exApptC1 : Appointment :=
  ⟨"aaaaaaaaaaaaaaaaaaaaaaaa", "standup", "R1", "daily sync", ["g1"], false, 1000, 2000, 0, 0⟩

/-- An event crossing midnight: start 2024-03-04 23:00, end
2024-03-05 01:00, both with zero seconds/sub-seconds (UTC+7 fields). -/
def exEventC3 : Mapper.Event :=
  ⟨"e1", "retro", "R1", "Room 1", "sprint retro", ["g1"], "u1",
    ⟨2024, 3, 4, 23, 0, 0, 0⟩, ⟨2024, 3, 5, 1, 0, 0, 0⟩⟩

/-- A same-day event: start 2024-03-04 09:00, end 2024-03-04 10:00,
both with zero seconds/sub-seconds (UTC+7 fields). -/
def exEventC3b : Mapper.Event :=
  ⟨"e2", "standup", "R1", "Room 1", "daily sync", ["g2"], "u1",
    ⟨2024, 3, 4, 9, 0, 0, 0⟩, ⟨2024, 3, 4, 10, 0, 0, 0⟩⟩

/-- A stored venue. -/
def exVenueC7 : Venue := ⟨"bbbbbbbbbbbbbbbbbbbbbbbb", "HQ", 0, 0⟩

-- Helper lemmas.

/-- Every Gregorian month has at least 28 days. -/
theorem daysInMonth_ge_28 (y : Int) (m : Nat) : 28 ≤ daysInMonth y m := by
  unfold daysInMonth
  split_ifs <;> omega

/-- The upserted appointment is an element of the resulting
collection. -/
theorem mem_collUpsertId (store : List Appointment) (id : String) (a : Appointment) :
    a ∈ collUpsertId store id a := by
  unfold collUpsertId
  split
  · rename_i hany
    rw [List.any_eq_true] at hany
    obtain ⟨w, hw, hbeq⟩ := hany
    have hmem := List.mem_map_of_mem (fun w => if w.id == id then a else w) hw
    simpa [hbeq] using hmem
  · simp

-- Claims.

/-- Claim C1, as frozen, is false on the code: `AppointmentRepo.Search`
takes no window argument and its query has no `start_time` clause, so
a returned event's start time need not lie in a given window.
Concretely, with the window `[0, 10]`, the search over a store holding
`exApptC1` (start time 1000) still returns `exApptC1`. -/
theorem claim_C1_counterexample :
    ¬ ∀ a ∈ AppointmentRepoSearch [exApptC1] ["R1"] false "g2",
        0 ≤ a.startTime ∧ a.startTime ≤ 10 := by
  decide

/-- Claim C1 (amended): every event returned by the event query has its
room reference a member of `roomIds`, and either its owner flag equal
to the owner argument or `guestId` contained in its guest-identifier
set; the query applies no time-window filter. -/
theorem claim_C1 (store : List Appointment) (roomIds : List String)
    (owner : Bool) (guestId : String) (a : Appointment)
    (ha : a ∈ AppointmentRepoSearch store roomIds owner guestId) :
    a.roomId ∈ roomIds ∧ (a.owner = owner ∨ guestId ∈ a.guestIds) := by
  unfold AppointmentRepoSearch at ha
  rw [List.mem_filter] at ha
  obtain ⟨-, hcond⟩ := ha
  simpa using hcond

/-- Claim C1 witness: the amended statement instantiated on a concrete
search call that returns `exApptC1`. -/
theorem claim_C1_witness :
    exApptC1.roomId ∈ ["R1"] ∧ (exApptC1.owner = false ∨ "g2" ∈ exApptC1.guestIds) :=
  claim_C1 [exApptC1] ["R1"] false "g2" exApptC1 (by decide)

/-- Claim C2, as frozen, is false on the code: with no client-supplied
bounds `AppointmentRepo.All` resolves the window to the beginning and
end of the current calendar month (`jinzhu/now`), whose span is never
7 days.  Concretely, at the instant 2024-03-04 10:30 the resolved span
is 31 days minus one nanosecond. -/
theorem claim_C2_counterexample :
    windowSpanNs (AppointmentRepoAllWindow ⟨2024, 3, 4, 10, 30, 0, 0⟩)
      ≠ 7 * 86400000000000 := by
  decide

/-- Claim C2 (amended): with no client-supplied bounds (the listing
reads none), the resolved window is the beginning through the end of
the current calendar month; its span is the month's length in days
minus one nanosecond — between 28 and 31 days — and in particular
never exactly 7 days. -/
theorem claim_C2 (t : DateTime) :
    windowSpanNs (AppointmentRepoAllWindow t)
        = (daysInMonth t.year t.month : Int) * 86400000000000 - 1
      ∧ windowSpanNs (AppointmentRepoAllWindow t) ≠ 7 * 86400000000000 := by
  have hdim : 28 ≤ daysInMonth t.year t.month := daysInMonth_ge_28 t.year t.month
  have hspan : windowSpanNs (AppointmentRepoAllWindow t)
      = (daysInMonth t.year t.month : Int) * 86400000000000 - 1 := by
    simp only [windowSpanNs, AppointmentRepoAllWindow, BeginningOfMonth, EndOfMonth,
      toNs, daysFromCivil]
    omega
  refine ⟨hspan, ?_⟩
  rw [hspan]
  omega

/-- Claim C3, as frozen, is false on the spec-modelled mapper: the
response shape shares one (year, month, date) triple between the two
instants, so an event crossing midnight is not reproduced even though
both its instants carry zero seconds and the fixed offset.
Concretely, `exEventC3` ends 2024-03-05 01:00 but comes back ending
2024-03-04 01:00. -/
theorem claim_C3_counterexample :
    (exEventC3.startTime.second = 0 ∧ exEventC3.startTime.nanosecond = 0
        ∧ exEventC3.endTime.second = 0 ∧ exEventC3.endTime.nanosecond = 0)
      ∧ Mapper.reverse (Mapper.forward exEventC3) ≠ exEventC3 := by
  decide

/-- Claim C3 (amended): for every event whose start and end instants
carry zero seconds and zero sub-seconds in the fixed UTC+7 offset AND
whose start and end fall on the same calendar day of that offset, the
reverse reconstruction of the forward projection yields the event's
instants exactly. -/
theorem claim_C3 (e : Mapper.Event)
    (hs : e.startTime.second = 0) (hsn : e.startTime.nanosecond = 0)
    (he : e.endTime.second = 0) (hen : e.endTime.nanosecond = 0)
    (hy : e.endTime.year = e.startTime.year)
    (hm : e.endTime.month = e.startTime.month)
    (hd : e.endTime.day = e.startTime.day) :
    Mapper.reverse (Mapper.forward e) = e := by
  obtain ⟨i, n, li, l, d, g, o, st, et⟩ := e
  obtain ⟨sy, sm, sd, sh, smi, ss, sns⟩ := st
  obtain ⟨ey, em, ed, eh, emi, es, ens⟩ := et
  simp_all [Mapper.forward, Mapper.reverse]

/-- Claim C3 witness: the amended statement instantiated on the
same-day, zero-second event `exEventC3b`. -/
theorem claim_C3_witness : Mapper.reverse (Mapper.forward exEventC3b) = exEventC3b :=
  claim_C3 exEventC3b rfl rfl rfl rfl rfl rfl rfl

/-- Claim C4: the event query called with an empty room-identifier set
returns the empty sequence, whatever the store and the owner/guest
arguments — an empty `roomIds` matches no events. -/
theorem claim_C4 (store : List Appointment) (owner : Bool) (guestId : String) :
    AppointmentRepoSearch store [] owner guestId = [] := by
  simp [AppointmentRepoSearch, List.filter_eq_nil_iff]

/-- Claim C5: the unfiltered listing applies no room, owner, or guest
filter — an appointment is in its result exactly when it is stored and
its start time lies within the resolved window, inclusive on both
ends. -/
theorem claim_C5 (t : DateTime) (store : List Appointment) (a : Appointment) :
    a ∈ AppointmentRepoAll t store
      ↔ a ∈ store
          ∧ toNs (AppointmentRepoAllWindow t).1 ≤ a.startTime
          ∧ a.startTime ≤ toNs (AppointmentRepoAllWindow t).2 := by
  simp [AppointmentRepoAll, List.mem_filter]

/-- Claim C6, as frozen, is false on the code: a malformed identifier
in the path makes `bson.ObjectIdHex` panic inside `VenueRepo.Find`,
which `recoverHandler` reports as the 500 internal-server error, not
as a validation (400-class) error; the failure does occur before any
store access. -/
theorem claim_C6_counterexample :
    venueHandler [exVenueC7] "zz" = (.failure ErrInternalServer, 0)
      ∧ isValidationError ErrInternalServer = false := by
  decide

/-- Claim C6 (amended): for every request whose path segment is not a
24-hex-character token, the operation fails — via a recovered panic —
with the internal-server error response (HTTP 500), and the failure
occurs before any store access is performed. -/
theorem claim_C6 (store : List Venue) (id : String)
    (h : validObjectIdHex id = false) :
    venueHandler store id = (.failure ErrInternalServer, 0) := by
  simp [venueHandler, VenueRepoFind, h]

/-- Claim C6 witness: the amended statement instantiated on the
malformed identifier string `bad`. -/
theorem claim_C6_witness :
    validObjectIdHex "bad" = false
      ∧ venueHandler [] "bad" = (.failure ErrInternalServer, 0) :=
  ⟨by decide, claim_C6 [] "bad" (by decide)⟩

/-- Claim C7: updating an identifier with no matching stored record
reports the mgo not-found error to the caller and leaves the store
unchanged — in particular no record is created under that
identifier. -/
theorem claim_C7 (now : Int) (store : List Venue) (venue : Venue)
    (h : ∀ w ∈ store, w.id ≠ venue.id) :
    VenueRepoUpdate now store venue = .error .notFound
      ∧ venueStoreAfterUpdate now store venue = store := by
  have hany : store.any (fun w => w.id == venue.id) = false := by
    rw [List.any_eq_false]
    intro w hw
    simpa using h w hw
  constructor
  · simp [VenueRepoUpdate, collUpdateId, hany]
  · simp [venueStoreAfterUpdate, VenueRepoUpdate, collUpdateId, hany]

/-- Claim C7 witness: the statement instantiated on a store that does
not hold the identifier of `exVenueC7`. -/
theorem claim_C7_witness :
    (∀ w ∈ ([] : List Venue), w.id ≠ exVenueC7.id)
      ∧ (VenueRepoUpdate 5 [] exVenueC7 = .error .notFound
          ∧ venueStoreAfterUpdate 5 [] exVenueC7 = []) :=
  ⟨by simp, claim_C7 5 [] exVenueC7 (by simp)⟩

/-- Claim C8: event creation performs no temporal validation — for
every appointment, its start and end instants unconstrained (in
particular when the end is not after the start, or when it overlaps an
already-stored booking), the create operation stores it: the new store
contents contain a record carrying the appointment's room, guests,
owner flag and both instants. -/
theorem claim_C8 (freshId : String) (now : Int) (store : List Appointment)
    (a : Appointment) :
    ∃ b ∈ AppointmentRepoCreate freshId now store a,
      b.roomId = a.roomId ∧ b.guestIds = a.guestIds ∧ b.owner = a.owner
        ∧ b.startTime = a.startTime ∧ b.endTime = a.endTime := by
  refine ⟨stampAppointment freshId now a, mem_collUpsertId store freshId _, ?_⟩
  simp [stampAppointment]

/-- Claim C9: the search handler reads `owner` and `guest_id` from the
route's path parameters, but the registered pattern
`/search-appointments` declares none, so every request executes the
search with `owner = false` and `guestId` the empty string; only the
`room_ids` query parameter varies the result. -/
theorem claim_C9 (store : List Appointment) (roomIds : List String)
    (ps : List (String × String))
    (h : ∀ p ∈ ps, p.1 ∈ pathParamNames searchAppointmentsRoute) :
    pathParamNames searchAppointmentsRoute = []
      ∧ searchAppointmentsHandler store roomIds ps
          = AppointmentRepoSearch store roomIds false "" := by
  have hnil : pathParamNames searchAppointmentsRoute = [] := by decide
  refine ⟨hnil, ?_⟩
  cases ps with
  | nil => rfl
  | cons p rest =>
    have := h p (List.mem_cons_self p rest)
    rw [hnil] at this
    simp at this

/-- Claim C9 witness: the statement instantiated on the (empty) path
parameters the route produces and a concrete store. -/
theorem claim_C9_witness :
    pathParamNames searchAppointmentsRoute = []
      ∧ searchAppointmentsHandler [exApptC1] ["R1"] []
          = AppointmentRepoSearch [exApptC1] ["R1"] false "" :=
  claim_C9 [exApptC1] ["R1"] [] (by simp)

/-- Claim C10: in the office-based revision, a rooms collection
populated entirely through the create operation yields the empty
result for every listing by office identifier: the query matches the
stored key `office_id`, while the marshalled room persists its office
reference under `officeid` (the `OfficeId` field has a malformed json
tag and no bson tag), so no created room ever matches. -/
theorem claim_C10 (items : List (String × Office.Room)) (officeId : String) :
    Office.RoomRepoAllByOfficeId (Office.createAll items) officeId = [] := by
  suffices h : ∀ s : List Office.Doc,
      Office.RoomRepoAllByOfficeId s officeId = []
        → Office.RoomRepoAllByOfficeId
            (items.foldl (fun s p => Office.RoomRepoCreate s p.1 p.2) s) officeId = [] by
    exact h [] rfl
  induction items with
  | nil => exact fun s hs => hs
  | cons p rest ih =>
    intro s hs
    refine ih _ ?_
    simp only [Office.RoomRepoCreate, Office.RoomRepoAllByOfficeId, List.filter_append]
    rw [Office.RoomRepoAllByOfficeId] at hs
    rw [hs]
    rfl
